import Mathlib

/-!
Verification of the `cloud-datastore-rs` client library.

The development shallowly embeds the library's data model (keys, property
values, entities), the typed value codec (read-side accessors on `Entity`),
the `EntityBuilder` write side, the commit-request construction of the
`Datastore` facade, and the `AuthInterceptor` call pipeline, and proves the
specification's claims about them.

The wire message shapes (the prost-generated protobuf structs) are not part
of the hand-written sources; where the embedding needs their shape it is
modelled from the spec, which treats them as a closed, fixed schema.
-/

namespace CDS

/-- Modelled from the spec: the protobuf `Timestamp` well-known type carried
by the timestamp value variant (seconds since epoch plus nanos). The
generated protobuf sources are not in the hand-written tree. -/
structure Timestamp where
  seconds : Int
  nanos : Int
deriving DecidableEq, Repr

/-- Modelled from the spec: a path segment's identifier is either a numeric
id or a string name (`key::path_element::IdType` in the generated code). -/
inductive IdType where
  | id (i : Int) : IdType
  | name (n : String) : IdType
deriving DecidableEq, Repr

/-- Modelled from the spec: a key path segment — a kind name plus an
optional identifier (`exactly one present or neither for a key awaiting
server-assigned id`). -/
structure PathElement where
  kind : String
  id_type : Option IdType
deriving DecidableEq, Repr

/-- Modelled from the spec: a key is an ordered sequence of path segments.
(The generated message also carries a partition id, which the library never
reads or writes; it is omitted as opaque.) -/
structure Key where
  path : List PathElement
deriving DecidableEq, Repr

mutual

/-- Modelled from the spec: the closed tagged union of property value
variants (`value::ValueType` in the generated code): null, boolean,
integer, double, timestamp, key-reference, string, array-of-value,
nested-entity. The double payload is carried as its raw 64 bits. -/
inductive ValueType : Type where
  | nullValue (v : Int) : ValueType
  | booleanValue (b : Bool) : ValueType
  | integerValue (i : Int) : ValueType
  | doubleValue (bits : Nat) : ValueType
  | timestampValue (t : Timestamp) : ValueType
  | keyValue (k : Key) : ValueType
  | stringValue (s : String) : ValueType
  | arrayValue (a : ArrayValue) : ValueType
  | entityValue (e : Entity) : ValueType

/-- Modelled from the spec: the array variant's payload, a list of values. -/
inductive ArrayValue : Type where
  | mk (values : List Value) : ArrayValue

/-- Modelled from the spec: a stored property value — the optional variant
payload plus the `exclude_from_indexes` flag and the legacy `meaning`
field of the generated `Value` message. -/
inductive Value : Type where
  | mk (meaning : Int) (exclude_from_indexes : Bool)
      (value_type : Option ValueType) : Value

/-- Modelled from the spec: an entity is an optional key plus a mapping from
property name to value (names unique, order irrelevant); the generated
message's map is embedded as an association list with unique names. -/
inductive Entity : Type where
  | mk (key : Option Key) (properties : List (String × Value)) : Entity

end

def Value.meaning : Value → Int
  | .mk m _ _ => m

def Value.exclude_from_indexes : Value → Bool
  | .mk _ x _ => x

def Value.value_type : Value → Option ValueType
  | .mk _ _ t => t

def ArrayValue.values : ArrayValue → List Value
  | .mk vs => vs

def Entity.key : Entity → Option Key
  | .mk k _ => k

def Entity.properties : Entity → List (String × Value)
  | .mk _ ps => ps

/-- `KeyError(String)` from the source: key accessor failures. -/
structure KeyError where
  msg : String
deriving DecidableEq, Repr

/-- `EntityValueError(String)` from the source: codec read failures. -/
structure EntityValueError where
  msg : String
deriving DecidableEq, Repr

/-- `HashMap::get` on the property map, embedded as association-list
lookup (property names are unique). -/
def getProp (props : List (String × Value)) (name : String) : Option Value :=
  match props with
  | [] => none
  | (k, v) :: rest => if k = name then some v else getProp rest name

/-- `Key::kind` from the source: the kind string of the first path segment;
fails when the path is empty. -/
def Key.kind (k : Key) : Except KeyError String :=
  match k.path with
  | [] => .error ⟨"Key has no path"⟩
  | pe :: _ => .ok pe.kind

/-- `Key::name` from the source: the string identifier of the first path
segment; fails when the path is empty, when the first segment has no
identifier, or when the identifier is numeric. -/
def Key.name (k : Key) : Except KeyError String :=
  match k.path with
  | [] => .error ⟨"Key has no path"⟩
  | pe :: _ =>
    match pe.id_type with
    | none => .error ⟨"Key has no name"⟩
    | some (IdType.name n) => .ok n
    | some (IdType.id _) => .error ⟨"Key has no name"⟩

/-- `Entity::req_key` from the source: the entity's key, required to be
present and to have first-segment kind equal to `kind`. -/
def Entity.req_key (e : Entity) (kind : String) : Except EntityValueError Key :=
  match e.key with
  | none => .error ⟨"Missing Key"⟩
  | some key =>
    match key.kind with
    | .error ke => .error ⟨ke.msg⟩
    | .ok key_kind =>
      if key_kind = kind then .ok key
      else .error ⟨"Invalid Key Kind. Expected '" ++ kind ++ "'."⟩

/-- `Entity::opt_string` from the source: absent when the property is
missing; the string when present with the string variant; an error
otherwise. -/
def Entity.opt_string (e : Entity) (name : String) :
    Except EntityValueError (Option String) :=
  match getProp e.properties name with
  | some v =>
    match v.value_type with
    | some (ValueType.stringValue s) => .ok (some s)
    | _ => .error ⟨"Field " ++ name ++ " is not a string"⟩
  | none => .ok none

/-- `Entity::req_string` from the source: delegates to `opt_string` and
promotes absence to a missing-required-field failure. -/
def Entity.req_string (e : Entity) (name : String) :
    Except EntityValueError String :=
  (e.opt_string name).bind fun v =>
    match v with
    | some s => .ok s
    | none => .error ⟨"missing required field"⟩

/-- `Entity::opt_bool` from the source. -/
def Entity.opt_bool (e : Entity) (name : String) :
    Except EntityValueError (Option Bool) :=
  match getProp e.properties name with
  | some v =>
    match v.value_type with
    | some (ValueType.booleanValue b) => .ok (some b)
    | _ => .error ⟨"Field " ++ name ++ " is not a boolean"⟩
  | none => .ok none

/-- `Entity::req_bool` from the source. -/
def Entity.req_bool (e : Entity) (name : String) :
    Except EntityValueError Bool :=
  (e.opt_bool name).bind fun v =>
    match v with
    | some b => .ok b
    | none => .error ⟨"missing required field"⟩

/-- The per-element conversion inside `Entity::opt_string_array`: a value is
accepted exactly when it carries the string variant. -/
def stringElem (name : String) (v : Value) : Except EntityValueError String :=
  match v.value_type with
  | some (ValueType.stringValue s) => .ok s
  | _ => .error ⟨"Field " ++ name ++ " is not a string"⟩

/-- The `collect::<Result<Vec<String>, _>>` over the array's elements in
`Entity::opt_string_array`: stops at the first non-string element. -/
def collectStrings (name : String) :
    List Value → Except EntityValueError (List String)
  | [] => .ok []
  | v :: rest =>
    match stringElem name v with
    | .error msg => .error msg
    | .ok s => (collectStrings name rest).map (s :: ·)

/-- `Entity::opt_string_array` from the source: absent when the property is
missing or carries no variant; when the variant is an array, every element
must be the string variant (the `collect` over `Result` short-circuits);
any other variant is an error. -/
def Entity.opt_string_array (e : Entity) (name : String) :
    Except EntityValueError (Option (List String)) :=
  match (getProp e.properties name).bind Value.value_type with
  | none => .ok none
  | some (ValueType.arrayValue arr) =>
    (collectStrings name arr.values).map some
  | some _ => .error ⟨"Field " ++ name ++ " is not an array"⟩

/-- `Entity::req_string_array` from the source: delegates to
`opt_string_array` and promotes absence to a missing-required-field
failure. -/
def Entity.req_string_array (e : Entity) (name : String) :
    Except EntityValueError (List String) :=
  (e.opt_string_array name).bind fun r =>
    match r with
    | some v => .ok v
    | none => .error ⟨"Entity missing required field '" ++ name ++ "'"⟩

/-- `HashMap::insert` on the property map, embedded on the association
list: replaces the binding for `name` when present, appends otherwise. -/
def insertProp (props : List (String × Value)) (name : String) (v : Value) :
    List (String × Value) :=
  match props with
  | [] => [(name, v)]
  | (k, w) :: rest =>
    if k = name then (name, v) :: rest else (k, w) :: insertProp rest name v

/-- `EntityBuilder` from the source: fluent assembly of an entity. -/
structure EntityBuilder where
  entity : Entity

/-- `EntityBuilder::new` from the source: empty bag, no key. -/
def EntityBuilder.new : EntityBuilder :=
  ⟨.mk none []⟩

/-- `EntityBuilder::with_key` from the source: sets the bag's key. -/
def EntityBuilder.with_key (b : EntityBuilder) (key : Key) : EntityBuilder :=
  ⟨.mk (some key) b.entity.properties⟩

/-- `EntityBuilder::with_key_name` from the source: single-segment key with
a string name identifier. -/
def EntityBuilder.with_key_name (b : EntityBuilder) (kind name : String) :
    EntityBuilder :=
  b.with_key ⟨[⟨kind, some (IdType.name name)⟩]⟩

/-- `EntityBuilder::add_value` from the source: inserts/overwrites a
property; `indexed = false` sets `exclude_from_indexes`; `meaning` stays
at its default. -/
def EntityBuilder.add_value (b : EntityBuilder) (name : String)
    (value : ValueType) (indexed : Bool) : EntityBuilder :=
  ⟨.mk b.entity.key
    (insertProp b.entity.properties name (Value.mk 0 (!indexed) (some value)))⟩

/-- `EntityBuilder::opt_value` from the source: no-op when the value is
absent, `add_value` otherwise. -/
def EntityBuilder.opt_value (b : EntityBuilder) (name : String)
    (value : Option ValueType) (indexed : Bool) : EntityBuilder :=
  match value with
  | some v => b.add_value name v indexed
  | none => b

/-- `EntityBuilder::add_string` from the source: `add_value` via the
`From<String> for ValueType` conversion (the string variant). -/
def EntityBuilder.add_string (b : EntityBuilder) (name value : String)
    (indexed : Bool) : EntityBuilder :=
  b.add_value name (ValueType.stringValue value) indexed

/-- `EntityBuilder::opt_string` from the source. -/
def EntityBuilder.opt_string (b : EntityBuilder) (name : String)
    (value : Option String) (indexed : Bool) : EntityBuilder :=
  b.opt_value name (value.map ValueType.stringValue) indexed

/-- `EntityBuilder::add_bool` from the source. -/
def EntityBuilder.add_bool (b : EntityBuilder) (name : String) (value : Bool)
    (indexed : Bool) : EntityBuilder :=
  b.add_value name (ValueType.booleanValue value) indexed

/-- `EntityBuilder::opt_bool` from the source. -/
def EntityBuilder.opt_bool (b : EntityBuilder) (name : String)
    (value : Option Bool) (indexed : Bool) : EntityBuilder :=
  b.opt_value name (value.map ValueType.booleanValue) indexed

/-- The `time` crate's `OffsetDateTime`, embedded by its unix timestamp —
the only part the library reads (it zeroes the nanos). -/
structure OffsetDateTime where
  unix_timestamp : Int
deriving DecidableEq, Repr

/-- `From<time::OffsetDateTime> for ValueType` from the source: a timestamp
variant with the value's unix seconds and zero nanos. -/
def offsetDateTimeToValueType (t : OffsetDateTime) : ValueType :=
  ValueType.timestampValue ⟨t.unix_timestamp, 0⟩

/-- `EntityBuilder::add_offset_date_time` from the source (under the `time`
feature). -/
def EntityBuilder.add_offset_date_time (b : EntityBuilder) (name : String)
    (value : OffsetDateTime) (indexed : Bool) : EntityBuilder :=
  b.add_value name (offsetDateTimeToValueType value) indexed

/-- `EntityBuilder::opt_offset_date_time` from the source (under the `time`
feature). -/
def EntityBuilder.opt_offset_date_time (b : EntityBuilder) (name : String)
    (value : Option OffsetDateTime) (indexed : Bool) : EntityBuilder :=
  b.opt_value name (value.map offsetDateTimeToValueType) indexed

/-- `EntityBuilder::add_string_array` from the source: inserts the property
directly, wrapping each element in the string variant; the stored value
keeps every non-payload field at its default. -/
def EntityBuilder.add_string_array (b : EntityBuilder) (name : String)
    (values : List String) : EntityBuilder :=
  ⟨.mk b.entity.key
    (insertProp b.entity.properties name
      (Value.mk 0 false
        (some (ValueType.arrayValue
          (ArrayValue.mk
            (values.map fun v => Value.mk 0 false
              (some (ValueType.stringValue v))))))))⟩

/-- `EntityBuilder::build` from the source. -/
def EntityBuilder.build (b : EntityBuilder) : Entity :=
  b.entity

/-- Modelled from the spec: the generated `commit_request::Mode` enum with
its protobuf numeric values. -/
inductive CommitMode where
  | unspecified
  | transactional
  | nonTransactional
deriving DecidableEq, Repr

/-- The `as i32` cast applied to the mode in the source. -/
def CommitMode.toI32 : CommitMode → Int
  | .unspecified => 0
  | .transactional => 1
  | .nonTransactional => 2

/-- Modelled from the spec: the generated `transaction_options::Mode` —
read-write (with an optional previous transaction id, defaulted to empty
bytes by the source) or read-only. -/
inductive TransactionMode where
  | readWrite (previous_transaction : List Nat)
  | readOnly
deriving DecidableEq, Repr

/-- Modelled from the spec: the generated `TransactionOptions` message. -/
structure TransactionOptions where
  mode : Option TransactionMode
deriving DecidableEq, Repr

/-- Modelled from the spec: the generated `commit_request::TransactionSelector`
oneof — an existing transaction id, or options for a single-use
transaction. -/
inductive TransactionSelector where
  | transaction (id : List Nat)
  | singleUseTransaction (opts : TransactionOptions)
deriving DecidableEq, Repr

/-- Modelled from the spec: the generated `mutation::Operation` oneof. -/
inductive Operation where
  | insert (e : Entity)
  | update (e : Entity)
  | upsert (e : Entity)
  | delete (k : Key)

/-- Modelled from the spec: the generated `Mutation` message; only the
operation field is ever set by the facade (the conflict-detection field
stays at its default and is omitted as opaque). -/
structure Mutation where
  operation : Option Operation

/-- Modelled from the spec: the generated `CommitRequest` message — the
identifiers the facade stamps in, the commit mode, the transaction
selector and the mutation list. -/
structure CommitRequest where
  project_id : String
  database_id : String
  mode : Int
  transaction_selector : Option TransactionSelector
  mutations : List Mutation

/-- The identifier state of the `Datastore` facade (the transport handle is
opaque and does not influence request construction). -/
structure Datastore where
  project_id : String
  database_id : String

/-- The `CommitRequest` built by `Datastore::upsert_entities` before it is
handed to `service.commit`: transactional mode, a single-use read-write
transaction, one upsert mutation per entity. -/
def Datastore.upsert_entities_request (ds : Datastore) (entities : List Entity) :
    CommitRequest :=
  { project_id := ds.project_id
    database_id := ds.database_id
    mode := CommitMode.transactional.toI32
    transaction_selector := some (TransactionSelector.singleUseTransaction
      ⟨some (TransactionMode.readWrite [])⟩)
    mutations := entities.map fun e => ⟨some (Operation.upsert e)⟩ }

/-- The `CommitRequest` built by `Datastore::upsert_entity`: non-transactional
mode, defaulted (absent) transaction selector, one upsert mutation. -/
def Datastore.upsert_entity_request (ds : Datastore) (entity : Entity) :
    CommitRequest :=
  { project_id := ds.project_id
    database_id := ds.database_id
    mode := CommitMode.nonTransactional.toI32
    transaction_selector := none
    mutations := [⟨some (Operation.upsert entity)⟩] }

/-- The `CommitRequest` built by `Datastore::delete_entity`: non-transactional
mode, defaulted (absent) transaction selector, one delete mutation. -/
def Datastore.delete_entity_request (ds : Datastore) (key : Key) :
    CommitRequest :=
  { project_id := ds.project_id
    database_id := ds.database_id
    mode := CommitMode.nonTransactional.toI32
    transaction_selector := none
    mutations := [⟨some (Operation.delete key)⟩] }

/-- The `CommitRequest` built by `Datastore::delete_entities`: transactional
mode, a single-use read-write transaction, one delete mutation per key. -/
def Datastore.delete_entities_request (ds : Datastore) (keys : List Key) :
    CommitRequest :=
  { project_id := ds.project_id
    database_id := ds.database_id
    mode := CommitMode.transactional.toI32
    transaction_selector := some (TransactionSelector.singleUseTransaction
      ⟨some (TransactionMode.readWrite [])⟩)
    mutations := keys.map fun k => ⟨some (Operation.delete k)⟩ }

/-- Modelled from the spec: the generated `RunQueryRequest` message. The
facade touches only `project_id` and `database_id`; every other field
(partition id, read options, the query itself) is opaque to it and is
bundled here as `rest` of an arbitrary type. -/
structure RunQueryRequest (α : Type) where
  project_id : String
  database_id : String
  rest : α

/-- `Datastore::run_query` from the source, restricted to its pure part:
the request actually handed to `service.run_query`, namely the caller's
request with the facade's identifiers stamped in. -/
def Datastore.run_query_sent {α : Type} (ds : Datastore)
    (request : RunQueryRequest α) : RunQueryRequest α :=
  { request with project_id := ds.project_id, database_id := ds.database_id }

/-- Modelled from the spec: validity of one byte of an HTTP header value as
enforced by the transport's header type (`http::HeaderValue`): horizontal
tab, or any byte at least 32 other than DEL (127); bytes 128..255
(obs-text, covering multi-byte UTF-8) are accepted. -/
def headerByteOk (b : Nat) : Bool :=
  b == 9 || (32 ≤ b && b != 127)

/-- Validity of a whole header-value string: every byte of its UTF-8
encoding is a valid header byte. A character below 128 encodes as itself;
every byte of a multi-byte encoding is at least 128 and hence valid, so
the byte-level rule reduces to this per-character check. -/
def headerValueOk (s : String) : Bool :=
  s.toList.all fun c => headerByteOk (min c.toNat 128)

/-- `str::parse::<HeaderValue>` as used by the interceptor: the string
itself when every byte is valid, failure otherwise. -/
def parseHeaderValue (s : String) : Option String :=
  if headerValueOk s then some s else none

/-- An outbound HTTP request: a header map (name-unique association list)
plus an opaque body. -/
structure HttpRequest (β : Type) where
  headers : List (String × String)
  body : β

/-- `HeaderMap::insert` from the `http` crate: replaces the value bound to
the name when present, appends otherwise. -/
def insertHeader (hs : List (String × String)) (name value : String) :
    List (String × String) :=
  match hs with
  | [] => [(name, value)]
  | (k, w) :: rest =>
    if k = name then (name, value) :: rest
    else (k, w) :: insertHeader rest name value

/-- The observable outcome of one call through the interceptor: a panic
(a `Result::unwrap` on an `Err`), or completion with the wrapped
transport's result. -/
inductive CallOutcome (ε ρ : Type) where
  | panicked (msg : String)
  | completed (r : Except ε ρ)

/-- The panic message `Result::unwrap` produces on an `Err`. -/
def unwrapPanicMsg : String :=
  "called Result::unwrap on an Err value"

/-- Whether a call outcome is a panic (and hence not a result — typed error
or success — returned to the caller). -/
def CallOutcome.isPanicked {ε ρ : Type} : CallOutcome ε ρ → Bool
  | .panicked _ => true
  | .completed _ => false

/-- `AuthInterceptor::new` from the source: the precomputed
routing-parameters string derived from the project and optional database
identifiers. -/
def requestParamsFor (project_id : String) (database_id : Option String) :
    String :=
  match database_id with
  | some db => "project_id=" ++ project_id ++ "&database_id=" ++ db
  | none => "project_id=" ++ project_id

/-- `AuthInterceptor::call` from the source, one call: `token_result` is
the outcome of `token_provider.token(AUTH_SCOPE)` for this call (the token
source is external), `request_params` the precomputed routing string,
`inner` the cloned wrapped transport. The source unwraps the token result
and both header parses — each failure panics; otherwise the decorated
request is forwarded and the inner result returned unchanged. -/
def interceptorCall {β ε ρ : Type} (token_result : Except String String)
    (request_params : String)
    (inner : HttpRequest β → Except ε ρ)
    (req : HttpRequest β) : CallOutcome ε ρ :=
  match token_result with
  | .error _ => .panicked unwrapPanicMsg
  | .ok token =>
    match parseHeaderValue ("Bearer " ++ token) with
    | none => .panicked unwrapPanicMsg
    | some auth =>
      match parseHeaderValue request_params with
      | none => .panicked unwrapPanicMsg
      | some rp =>
        .completed (inner
          { req with headers := (insertHeader
              (insertHeader req.headers "authorization" auth)
              "x-goog-request-params" rp) })

/-- Spec-side reading of one array element: its string payload when it
carries the string variant, nothing otherwise. -/
def stringOfValue (v : Value) : Option String :=
  match v.value_type with
  | some (ValueType.stringValue s) => some s
  | _ => none

/-- Spec-side reading of a whole array: the list of all string payloads
when every element carries the string variant, nothing otherwise. -/
def stringsOf : List Value → Option (List String)
  | [] => some []
  | v :: rest =>
    match stringOfValue v with
    | none => none
    | some s => (stringsOf rest).map (s :: ·)

/-- A concrete bag with one string and one boolean property, used to
exercise the codec accessors. -/
def sampleBag : Entity :=
  Entity.mk none
    [("t", Value.mk 0 false (some (ValueType.stringValue "x"))),
     ("b", Value.mk 0 false (some (ValueType.booleanValue true)))]

/-- A concrete all-strings array payload. -/
def goodArray : ArrayValue :=
  ArrayValue.mk
    [Value.mk 0 false (some (ValueType.stringValue "a")),
     Value.mk 0 false (some (ValueType.stringValue "b"))]

/-- A concrete array payload with one non-string element. -/
def badArray : ArrayValue :=
  ArrayValue.mk
    [Value.mk 0 false (some (ValueType.stringValue "a")),
     Value.mk 0 false (some (ValueType.booleanValue true))]

/-- A bag holding `goodArray` under the property name `tags`. -/
def goodArrayBag : Entity :=
  Entity.mk none
    [("tags", Value.mk 0 false (some (ValueType.arrayValue goodArray)))]

/-- A bag holding `badArray` under the property name `tags`. -/
def badArrayBag : Entity :=
  Entity.mk none
    [("tags", Value.mk 0 false (some (ValueType.arrayValue badArray)))]

/- ————————————————————————————————————————————————————————————————
   Helper lemmas
   ———————————————————————————————————————————————————————————————— -/

theorem getProp_insertProp (props : List (String × Value)) (name : String)
    (v : Value) : getProp (insertProp props name v) name = some v := by
  induction props with
  | nil => simp [insertProp, getProp]
  | cons hd tl ih =>
    obtain ⟨k, w⟩ := hd
    by_cases hk : k = name
    · simp [insertProp, hk, getProp]
    · simp [insertProp, hk, getProp, ih]

theorem stringOfValue_some_iff (v : Value) (s : String) :
    stringOfValue v = some s
      ↔ v.value_type = some (ValueType.stringValue s) := by
  unfold stringOfValue
  cases hvt : v.value_type with
  | none => simp
  | some vt => cases vt <;> simp

theorem stringElem_of_some (name : String) (v : Value) (s : String)
    (hv : stringOfValue v = some s) : stringElem name v = .ok s := by
  have ht := (stringOfValue_some_iff v s).mp hv
  unfold stringElem
  rw [ht]

theorem stringElem_of_none (name : String) (v : Value)
    (hv : stringOfValue v = none) :
    stringElem name v = .error ⟨"Field " ++ name ++ " is not a string"⟩ := by
  unfold stringElem
  unfold stringOfValue at hv
  cases hvt : v.value_type with
  | none => rfl
  | some vt =>
    rw [hvt] at hv
    cases vt <;> simp_all

theorem collectStrings_of_stringsOf_some (name : String) (vs : List Value)
    (l : List String) (h : stringsOf vs = some l) :
    collectStrings name vs = .ok l := by
  induction vs generalizing l with
  | nil =>
    simp [stringsOf] at h
    simp [collectStrings, ← h]
  | cons v rest ih =>
    simp only [stringsOf] at h
    cases hv : stringOfValue v with
    | none => rw [hv] at h; simp at h
    | some s =>
      rw [hv] at h
      cases hrest : stringsOf rest with
      | none => rw [hrest] at h; simp at h
      | some l' =>
        rw [hrest] at h
        simp at h
        subst h
        simp only [collectStrings, stringElem_of_some name v s hv, ih l' hrest]
        rfl

theorem collectStrings_of_stringsOf_none (name : String) (vs : List Value)
    (h : stringsOf vs = none) :
    collectStrings name vs
      = .error ⟨"Field " ++ name ++ " is not a string"⟩ := by
  induction vs with
  | nil => simp [stringsOf] at h
  | cons v rest ih =>
    simp only [stringsOf] at h
    cases hv : stringOfValue v with
    | none => simp only [collectStrings, stringElem_of_none name v hv]
    | some s =>
      rw [hv] at h
      cases hrest : stringsOf rest with
      | none =>
        simp only [collectStrings, stringElem_of_some name v s hv, ih hrest]
        rfl
      | some l' => rw [hrest] at h; simp at h

theorem stringsOf_some_iff (vs : List Value) :
    (∃ l, stringsOf vs = some l)
      ↔ ∀ x ∈ vs, ∃ s, x.value_type = some (ValueType.stringValue s) := by
  induction vs with
  | nil => simp [stringsOf]
  | cons v rest ih =>
    simp only [List.mem_cons]
    constructor
    · rintro ⟨l, hl⟩
      simp only [stringsOf] at hl
      cases hv : stringOfValue v with
      | none => rw [hv] at hl; simp at hl
      | some s =>
        rw [hv] at hl
        cases hrest : stringsOf rest with
        | none => rw [hrest] at hl; simp at hl
        | some l' =>
          intro x hx
          rcases hx with rfl | hx
          · exact ⟨s, (stringOfValue_some_iff x s).mp hv⟩
          · exact (ih.mp ⟨l', hrest⟩) x hx
    · intro hall
      obtain ⟨s, hs⟩ := hall v (Or.inl rfl)
      obtain ⟨l', hl'⟩ := ih.mpr fun x hx => hall x (Or.inr hx)
      refine ⟨s :: l', ?_⟩
      simp only [stringsOf, (stringOfValue_some_iff v s).mpr hs, hl']
      rfl

/- ————————————————————————————————————————————————————————————————
   Claim theorems
   ———————————————————————————————————————————————————————————————— -/

/-- C2: `req_key k` fails when the bag has no key, when `Key.kind` fails on
the bag's key (empty path), and when the key's first-segment kind differs
from `k`; when the key is present with first-segment kind `k` it succeeds
and returns that key. -/
theorem req_key_characterization (e : Entity) (k : String) :
    (e.key = none → e.req_key k = .error ⟨"Missing Key"⟩)
    ∧ (∀ key, e.key = some key → key.path = [] →
        e.req_key k = .error ⟨"Key has no path"⟩)
    ∧ (∀ key pe rest, e.key = some key → key.path = pe :: rest →
        pe.kind ≠ k →
        e.req_key k = .error ⟨"Invalid Key Kind. Expected '" ++ k ++ "'."⟩)
    ∧ (∀ key pe rest, e.key = some key → key.path = pe :: rest →
        pe.kind = k → e.req_key k = .ok key) := by
  refine ⟨?_, ?_, ?_, ?_⟩
  · intro h
    simp [Entity.req_key, h]
  · intro key hk hp
    simp [Entity.req_key, hk, Key.kind, hp]
  · intro key pe rest hk hp hne
    simp [Entity.req_key, hk, Key.kind, hp, hne]
  · intro key pe rest hk hp heq
    simp [Entity.req_key, hk, Key.kind, hp, heq]

/-- Witness for C2 at concrete bags: a `"Movie"`-keyed bag fails `req_key
"Book"` with the kind-mismatch error, and a `"Book"`-keyed bag succeeds
returning its key. -/
theorem req_key_characterization_witness :
    Entity.req_key
        (Entity.mk (some (Key.mk [PathElement.mk "Movie"
          (some (IdType.name "b1"))])) []) "Book"
      = .error ⟨"Invalid Key Kind. Expected 'Book'."⟩
    ∧ Entity.req_key
        (Entity.mk (some (Key.mk [PathElement.mk "Book"
          (some (IdType.name "b1"))])) []) "Book"
      = .ok (Key.mk [PathElement.mk "Book" (some (IdType.name "b1"))]) :=
  ⟨(req_key_characterization _ "Book").2.2.1 _ _ _ rfl rfl (by decide),
   (req_key_characterization _ "Book").2.2.2 _ _ _ rfl rfl rfl⟩

/-- C3: `opt_string n` is `Ok(None)` when the property is missing, the
string when present with the string variant, and an `EntityValueError`
when present with a mismatched variant; `req_string n` gives the same
results except that absence becomes the missing-required-field failure. -/
theorem opt_req_string_characterization (e : Entity) (n : String) :
    (getProp e.properties n = none →
      e.opt_string n = .ok none
      ∧ e.req_string n = .error ⟨"missing required field"⟩)
    ∧ (∀ v s, getProp e.properties n = some v →
        v.value_type = some (ValueType.stringValue s) →
        e.opt_string n = .ok (some s) ∧ e.req_string n = .ok s)
    ∧ (∀ v vt, getProp e.properties n = some v →
        v.value_type = some vt →
        (∀ s, vt ≠ ValueType.stringValue s) →
        e.opt_string n = .error ⟨"Field " ++ n ++ " is not a string"⟩
        ∧ e.req_string n = .error ⟨"Field " ++ n ++ " is not a string"⟩) := by
  refine ⟨?_, ?_, ?_⟩
  · intro h
    constructor
    · simp [Entity.opt_string, h]
    · simp [Entity.req_string, Entity.opt_string, h, Except.bind]
  · intro v s hv hs
    constructor
    · simp [Entity.opt_string, hv, hs]
    · simp [Entity.req_string, Entity.opt_string, hv, hs, Except.bind]
  · intro v vt hv ht hne
    have hopt : e.opt_string n
        = .error ⟨"Field " ++ n ++ " is not a string"⟩ := by
      cases vt with
      | stringValue s => exact absurd rfl (hne s)
      | nullValue i => simp [Entity.opt_string, hv, ht]
      | booleanValue b => simp [Entity.opt_string, hv, ht]
      | integerValue i => simp [Entity.opt_string, hv, ht]
      | doubleValue bits => simp [Entity.opt_string, hv, ht]
      | timestampValue t => simp [Entity.opt_string, hv, ht]
      | keyValue k => simp [Entity.opt_string, hv, ht]
      | arrayValue a => simp [Entity.opt_string, hv, ht]
      | entityValue en => simp [Entity.opt_string, hv, ht]
    exact ⟨hopt, by simp [Entity.req_string, hopt, Except.bind]⟩

/-- Witness for C3 at a concrete bag holding one string and one boolean
property: the missing, matching and mismatched cases. -/
theorem opt_req_string_characterization_witness :
    (sampleBag.opt_string "gone" = .ok none)
    ∧ (sampleBag.req_string "gone" = .error ⟨"missing required field"⟩)
    ∧ (sampleBag.req_string "t" = .ok "x")
    ∧ (sampleBag.opt_string "b" = .error ⟨"Field b is not a string"⟩) :=
  ⟨((opt_req_string_characterization sampleBag "gone").1 rfl).1,
   ((opt_req_string_characterization sampleBag "gone").1 rfl).2,
   ((opt_req_string_characterization sampleBag "t").2.1
      (Value.mk 0 false (some (ValueType.stringValue "x"))) "x" rfl rfl).2,
   ((opt_req_string_characterization sampleBag "b").2.2
      (Value.mk 0 false (some (ValueType.booleanValue true)))
      (ValueType.booleanValue true) rfl rfl
      (fun _ h => ValueType.noConfusion h)).1⟩

/-- C10: a present property whose value slot carries no variant makes
`opt_string` fail with the not-a-string error, while `opt_string_array` on
the same bag reports absence (`Ok(None)`). -/
theorem variantless_property_asymmetry (e : Entity) (n : String) (v : Value)
    (hv : getProp e.properties n = some v) (ht : v.value_type = none) :
    e.opt_string n = .error ⟨"Field " ++ n ++ " is not a string"⟩
    ∧ e.opt_string_array n = .ok none := by
  constructor
  · simp [Entity.opt_string, hv, ht]
  · simp [Entity.opt_string_array, hv, ht, Option.bind]

/-- C4: when the property is present with the array variant, the array
accessors succeed with the list of all elements exactly when every element
carries the string variant; any other element fails the whole call and no
partial list is returned. -/
theorem string_array_characterization (e : Entity) (n : String) (v : Value)
    (arr : ArrayValue)
    (hv : getProp e.properties n = some v)
    (ht : v.value_type = some (ValueType.arrayValue arr)) :
    (∀ l, stringsOf arr.values = some l →
      e.opt_string_array n = .ok (some l) ∧ e.req_string_array n = .ok l)
    ∧ (stringsOf arr.values = none →
      e.opt_string_array n = .error ⟨"Field " ++ n ++ " is not a string"⟩
      ∧ e.req_string_array n
          = .error ⟨"Field " ++ n ++ " is not a string"⟩)
    ∧ ((∃ l, e.opt_string_array n = .ok (some l))
        ↔ ∀ x ∈ arr.values, ∃ s,
            x.value_type = some (ValueType.stringValue s)) := by
  have harr : e.opt_string_array n = (collectStrings n arr.values).map some := by
    simp [Entity.opt_string_array, hv, ht, Option.bind]
  refine ⟨?_, ?_, ?_⟩
  · intro l hl
    have hc := collectStrings_of_stringsOf_some n arr.values l hl
    constructor
    · rw [harr, hc]
      rfl
    · unfold Entity.req_string_array
      rw [harr, hc]
      rfl
  · intro hnone
    have hc := collectStrings_of_stringsOf_none n arr.values hnone
    constructor
    · rw [harr, hc]
      rfl
    · unfold Entity.req_string_array
      rw [harr, hc]
      rfl
  · rw [← stringsOf_some_iff]
    constructor
    · rintro ⟨l, hl⟩
      cases hs : stringsOf arr.values with
      | some l2 => exact ⟨l2, rfl⟩
      | none =>
        rw [harr, collectStrings_of_stringsOf_none n arr.values hs] at hl
        simp [Except.map] at hl
    · rintro ⟨l, hl⟩
      refine ⟨l, ?_⟩
      rw [harr, collectStrings_of_stringsOf_some n arr.values l hl]
      rfl

/-- Witness for C4 at concrete bags: an all-strings array succeeds with the
full list; an array with one boolean element fails for the whole field. -/
theorem string_array_characterization_witness :
    (goodArrayBag.opt_string_array "tags" = .ok (some ["a", "b"]))
    ∧ (goodArrayBag.req_string_array "tags" = .ok ["a", "b"])
    ∧ (badArrayBag.opt_string_array "tags"
        = .error ⟨"Field tags is not a string"⟩)
    ∧ (badArrayBag.req_string_array "tags"
        = .error ⟨"Field tags is not a string"⟩) :=
  ⟨((string_array_characterization goodArrayBag "tags"
      (Value.mk 0 false (some (ValueType.arrayValue goodArray))) goodArray
      rfl rfl).1 ["a", "b"] rfl).1,
   ((string_array_characterization goodArrayBag "tags"
      (Value.mk 0 false (some (ValueType.arrayValue goodArray))) goodArray
      rfl rfl).1 ["a", "b"] rfl).2,
   ((string_array_characterization badArrayBag "tags"
      (Value.mk 0 false (some (ValueType.arrayValue badArray))) badArray
      rfl rfl).2.1 rfl).1,
   ((string_array_characterization badArrayBag "tags"
      (Value.mk 0 false (some (ValueType.arrayValue badArray))) badArray
      rfl rfl).2.1 rfl).2⟩

/-- C5 counterexample: a key whose path is the single segment
`{kind: "Book", id_type: None}` has a non-empty path and a first-segment
identifier that is absent — not numeric — yet `name()` fails. The claim's
failure cases (empty path, numeric identifier) are therefore not the only
ones. -/
theorem key_name_counterexample :
    (Key.mk [PathElement.mk "Book" none]).path ≠ []
    ∧ (PathElement.mk "Book" none).id_type = none
    ∧ Key.name (Key.mk [PathElement.mk "Book" none])
      = .error ⟨"Key has no name"⟩ :=
  ⟨by simp, rfl, rfl⟩

/-- C5 amended: `name()` returns the string identifier of the first path
segment; it fails with a `KeyError` exactly when the path is empty, or the
first segment carries no identifier at all, or its identifier is numeric
rather than string-named. -/
theorem key_name_characterization (k : Key) :
    (∀ n, k.name = .ok n ↔
      ∃ pe rest, k.path = pe :: rest ∧ pe.id_type = some (IdType.name n))
    ∧ ((∃ msg, k.name = .error msg) ↔
      (k.path = [] ∨ ∃ pe rest, k.path = pe :: rest
        ∧ ∀ n, pe.id_type ≠ some (IdType.name n))) := by
  obtain ⟨path⟩ := k
  cases path with
  | nil =>
    constructor
    · intro n
      constructor
      · intro h
        exact absurd h (by simp [Key.name])
      · rintro ⟨pe, rest, h, -⟩
        exact absurd h (by simp)
    · constructor
      · intro _
        exact Or.inl rfl
      · intro _
        exact ⟨⟨"Key has no path"⟩, rfl⟩
  | cons pe rest =>
    cases hid : pe.id_type with
    | none =>
      have hname : Key.name (Key.mk (pe :: rest))
          = .error ⟨"Key has no name"⟩ := by
        simp [Key.name, hid]
      constructor
      · intro n
        constructor
        · intro h
          rw [hname] at h
          exact absurd h (by simp)
        · rintro ⟨pe2, rest2, heq, h2⟩
          injection heq with h3 h4
          rw [← h3, hid] at h2
          exact absurd h2 (by simp)
      · constructor
        · intro _
          exact Or.inr ⟨pe, rest, rfl, fun n h => by
            rw [hid] at h
            exact Option.noConfusion h⟩
        · intro _
          exact ⟨⟨"Key has no name"⟩, hname⟩
    | some idt =>
      cases idt with
      | id i =>
        have hname : Key.name (Key.mk (pe :: rest))
            = .error ⟨"Key has no name"⟩ := by
          simp [Key.name, hid]
        constructor
        · intro n
          constructor
          · intro h
            rw [hname] at h
            exact absurd h (by simp)
          · rintro ⟨pe2, rest2, heq, h2⟩
            injection heq with h3 h4
            rw [← h3, hid] at h2
            injection h2 with h5
            exact IdType.noConfusion h5
        · constructor
          · intro _
            refine Or.inr ⟨pe, rest, rfl, fun n h => ?_⟩
            rw [hid] at h
            injection h with h5
            exact IdType.noConfusion h5
          · intro _
            exact ⟨⟨"Key has no name"⟩, hname⟩
      | name m =>
        have hname : Key.name (Key.mk (pe :: rest)) = .ok m := by
          simp [Key.name, hid]
        constructor
        · intro n
          constructor
          · intro h
            rw [hname] at h
            injection h with h2
            exact ⟨pe, rest, rfl, by rw [hid, h2]⟩
          · rintro ⟨pe2, rest2, heq, h2⟩
            injection heq with h3 h4
            rw [← h3, hid] at h2
            injection h2 with h5
            injection h5 with h6
            rw [hname, h6]
        · constructor
          · rintro ⟨msg, h⟩
            rw [hname] at h
            exact absurd h (by simp)
          · rintro (h | ⟨pe2, rest2, heq, hall⟩)
            · exact absurd h (by simp)
            · injection heq with h3 h4
              rw [← h3] at hall
              exact absurd hid (hall m)

/-- Witness for C5 amended at a concrete string-named key. -/
theorem key_name_characterization_witness :
    Key.name (Key.mk [PathElement.mk "Book" (some (IdType.name "b1"))])
      = .ok "b1" :=
  ((key_name_characterization
      (Key.mk [PathElement.mk "Book" (some (IdType.name "b1"))])).1 "b1").mpr
    ⟨PathElement.mk "Book" (some (IdType.name "b1")), [], rfl, rfl⟩

/-- Witness for C10 at a concrete bag whose only property has an empty
value slot. -/
theorem variantless_property_asymmetry_witness :
    Entity.opt_string (Entity.mk none [("p", Value.mk 0 false none)]) "p"
      = .error ⟨"Field p is not a string"⟩
    ∧ Entity.opt_string_array
        (Entity.mk none [("p", Value.mk 0 false none)]) "p"
      = .ok none :=
  variantless_property_asymmetry
    (Entity.mk none [("p", Value.mk 0 false none)]) "p"
    (Value.mk 0 false none) rfl rfl

/-- C6: the batch operations build transactional commit requests with a
single-use read-write transaction selector, the single operations build
non-transactional requests with no selector, and all four carry exactly
one mutation per input element wrapping it as an upsert or a delete. -/
theorem commit_request_envelopes (ds : Datastore) (es : List Entity)
    (ks : List Key) (e : Entity) (k : Key) :
    ((ds.upsert_entities_request es).mode = CommitMode.transactional.toI32
      ∧ (ds.upsert_entities_request es).transaction_selector
          = some (TransactionSelector.singleUseTransaction
              ⟨some (TransactionMode.readWrite [])⟩)
      ∧ (ds.upsert_entities_request es).mutations
          = es.map (fun x => ⟨some (Operation.upsert x)⟩)
      ∧ (ds.upsert_entities_request es).mutations.length = es.length)
    ∧ ((ds.delete_entities_request ks).mode = CommitMode.transactional.toI32
      ∧ (ds.delete_entities_request ks).transaction_selector
          = some (TransactionSelector.singleUseTransaction
              ⟨some (TransactionMode.readWrite [])⟩)
      ∧ (ds.delete_entities_request ks).mutations
          = ks.map (fun x => ⟨some (Operation.delete x)⟩)
      ∧ (ds.delete_entities_request ks).mutations.length = ks.length)
    ∧ ((ds.upsert_entity_request e).mode = CommitMode.nonTransactional.toI32
      ∧ (ds.upsert_entity_request e).transaction_selector = none
      ∧ (ds.upsert_entity_request e).mutations
          = [⟨some (Operation.upsert e)⟩])
    ∧ ((ds.delete_entity_request k).mode = CommitMode.nonTransactional.toI32
      ∧ (ds.delete_entity_request k).transaction_selector = none
      ∧ (ds.delete_entity_request k).mutations
          = [⟨some (Operation.delete k)⟩]) := by
  refine ⟨⟨rfl, rfl, rfl, ?_⟩, ⟨rfl, rfl, rfl, ?_⟩, ⟨rfl, rfl, rfl⟩,
    ⟨rfl, rfl, rfl⟩⟩
  · simp [Datastore.upsert_entities_request]
  · simp [Datastore.delete_entities_request]

/-- C7: `add_value` stores the property with `exclude_from_indexes` equal
to the negation of `indexed`, and the same holds for `add_string`; reading
the property back from the built entity shows exactly that flag state and
the stored variant. -/
theorem add_value_indexing (b : EntityBuilder) (n : String) (v : ValueType)
    (s : String) (ix : Bool) :
    getProp ((b.add_value n v ix).build).properties n
        = some (Value.mk 0 (!ix) (some v))
    ∧ getProp ((b.add_string n s ix).build).properties n
        = some (Value.mk 0 (!ix) (some (ValueType.stringValue s)))
    ∧ (Value.mk 0 (!ix) (some v)).exclude_from_indexes = !ix := by
  refine ⟨?_, ?_, rfl⟩
  · exact getProp_insertProp b.entity.properties n (Value.mk 0 (!ix) (some v))
  · exact getProp_insertProp b.entity.properties n
      (Value.mk 0 (!ix) (some (ValueType.stringValue s)))

/-- C8: every typed convenience wrapper of the builder equals the
corresponding `add_value`/`opt_value` call with the value wrapped in the
appropriate variant tag (for `add_string_array`, the `add_value` call with
`indexed = true`, whose stored flag state it reproduces). -/
theorem builder_wrappers_route (b : EntityBuilder) (n : String) (s : String)
    (os : Option String) (bv : Bool) (ob : Option Bool) (t : OffsetDateTime)
    (ot : Option OffsetDateTime) (vs : List String) (ix : Bool) :
    b.add_string n s ix = b.add_value n (ValueType.stringValue s) ix
    ∧ b.opt_string n os ix = b.opt_value n (os.map ValueType.stringValue) ix
    ∧ b.add_bool n bv ix = b.add_value n (ValueType.booleanValue bv) ix
    ∧ b.opt_bool n ob ix = b.opt_value n (ob.map ValueType.booleanValue) ix
    ∧ b.add_offset_date_time n t ix
        = b.add_value n (offsetDateTimeToValueType t) ix
    ∧ b.opt_offset_date_time n ot ix
        = b.opt_value n (ot.map offsetDateTimeToValueType) ix
    ∧ b.add_string_array n vs
        = b.add_value n
            (ValueType.arrayValue (ArrayValue.mk
              (vs.map fun x => Value.mk 0 false
                (some (ValueType.stringValue x))))) true :=
  ⟨rfl, rfl, rfl, rfl, rfl, rfl, rfl⟩

/-- C9: the request `run_query` hands to the transport is the caller's
request with only `project_id` and `database_id` replaced by the facade's
stored identifiers; every other field is forwarded unchanged. -/
theorem run_query_frame {α : Type} (ds : Datastore)
    (request : RunQueryRequest α) :
    (ds.run_query_sent request).project_id = ds.project_id
    ∧ (ds.run_query_sent request).database_id = ds.database_id
    ∧ (ds.run_query_sent request).rest = request.rest :=
  ⟨rfl, rfl, rfl⟩

/-- C1 counterexample: when the token source fails for a call, the
interceptor's call does not complete with a typed error result — it
panics (the source unwraps the token result). At the concrete failing
input the outcome is the unwrap panic, and a panic is not a completed
result of either form. -/
theorem auth_failure_not_typed_error :
    interceptorCall (Except.error "token source failed") "project_id=p"
        (fun _ => (Except.ok () : Except Unit Unit))
        (HttpRequest.mk [] ())
      = CallOutcome.panicked unwrapPanicMsg
    ∧ (interceptorCall (Except.error "token source failed") "project_id=p"
        (fun _ => (Except.ok () : Except Unit Unit))
        (HttpRequest.mk [] ())).isPanicked = true
    ∧ (CallOutcome.completed (Except.error ())
        : CallOutcome Unit Unit).isPanicked = false
    ∧ (CallOutcome.completed (Except.ok ())
        : CallOutcome Unit Unit).isPanicked = false :=
  ⟨rfl, rfl, rfl, rfl⟩

/-- C1 amended: a failure to obtain a token aborts that call by panicking
(the unwrap), not by returning a typed error to the caller; a
header-construction failure (malformed bytes in the bearer or
routing-parameters header value) likewise panics; in every failure case
the wrapped transport is never consulted (the outcome is the same for
every `inner`) and nothing is retried; only when the token and both header
values are valid is the decorated request forwarded and the inner result
returned unchanged. -/
theorem auth_failures_panic {β ε ρ : Type} (tr : Except String String)
    (rp : String) (inner : HttpRequest β → Except ε ρ)
    (req : HttpRequest β) :
    (∀ msg, tr = .error msg →
      interceptorCall tr rp inner req = .panicked unwrapPanicMsg)
    ∧ (∀ t, tr = .ok t → headerValueOk ("Bearer " ++ t) = false →
      interceptorCall tr rp inner req = .panicked unwrapPanicMsg)
    ∧ (∀ t, tr = .ok t → headerValueOk ("Bearer " ++ t) = true →
        headerValueOk rp = false →
      interceptorCall tr rp inner req = .panicked unwrapPanicMsg)
    ∧ (∀ t, tr = .ok t → headerValueOk ("Bearer " ++ t) = true →
        headerValueOk rp = true →
      interceptorCall tr rp inner req = .completed (inner
        { req with headers := (insertHeader
            (insertHeader req.headers "authorization" ("Bearer " ++ t))
            "x-goog-request-params" rp) })) := by
  refine ⟨?_, ?_, ?_, ?_⟩
  · rintro msg rfl
    rfl
  · rintro t rfl hbad
    simp [interceptorCall, parseHeaderValue, hbad]
  · rintro t rfl hok hbad
    simp [interceptorCall, parseHeaderValue, hok, hbad]
  · rintro t rfl hok1 hok2
    simp [interceptorCall, parseHeaderValue, hok1, hok2]

/-- Witness for C1 amended at concrete calls: a failed token fetch panics;
a token whose bearer header value holds a malformed byte (a newline)
panics; a valid token and routing string complete with the inner result. -/
theorem auth_failures_panic_witness :
    interceptorCall (Except.error "denied") "project_id=p"
        (fun _ => (Except.ok () : Except Unit Unit)) (HttpRequest.mk [] ())
      = CallOutcome.panicked unwrapPanicMsg
    ∧ interceptorCall (Except.ok "tok\n") "project_id=p"
        (fun _ => (Except.ok () : Except Unit Unit)) (HttpRequest.mk [] ())
      = CallOutcome.panicked unwrapPanicMsg
    ∧ interceptorCall (Except.ok "tok") "project_id=p"
        (fun _ => (Except.ok () : Except Unit Unit)) (HttpRequest.mk [] ())
      = CallOutcome.completed (Except.ok ()) :=
  ⟨(auth_failures_panic (Except.error "denied") "project_id=p"
      (fun _ => (Except.ok () : Except Unit Unit))
      (HttpRequest.mk [] ())).1 "denied" rfl,
   (auth_failures_panic (Except.ok "tok\n") "project_id=p"
      (fun _ => (Except.ok () : Except Unit Unit))
      (HttpRequest.mk [] ())).2.1 "tok\n" rfl rfl,
   (auth_failures_panic (Except.ok "tok") "project_id=p"
      (fun _ => (Except.ok () : Except Unit Unit))
      (HttpRequest.mk [] ())).2.2.2 "tok" rfl rfl rfl⟩

end CDS
